import Mathlib

/-!
# Shallow embedding of the LC-3 simulator core (src/lc3sim.c)

This file embeds the instruction-execution engine of the LC-3 simulator:
the fetch/decode/execute loop (`main`'s `while` loop), the sign-extension
helpers (`sext5`/`sext6`/`sext9`/`sext11`), the privilege/exception entry
function (`interrupt`), the user-address check (`check_user_address`) and
the condition-code update (`update_cond_code`).

Modelling conventions:
* A machine word is a `Nat`; every store into a `uint16_t` cell of the C
  program that narrows a wider arithmetic result is taken `% 65536`.
* The C program represents PC as a raw pointer into the memory buffer and
  computes effective addresses by pointer arithmetic on `int16_t` offsets;
  we model the pointer as a word index and take the arithmetic modulo
  2^16 (`i2w`), which coincides with the C program whenever the resulting
  host index lies inside the 16-bit address space.
* `memory` is a function `Nat → Nat`; indices `0x10000` and `0x10001` are
  the out-of-address-space shadow cells `OS_SSP` and `OS_USP` of the C
  program (the allocation is `0x10000 + 2` words).
* The scripted input stream (`input_buffer`/`input_index`/`input_size`)
  is a `List Nat` plus a cursor; the host output buffer (`buffer`/`ddrct`)
  is a `List Nat` of emitted bytes.
-/

/-- Truncation to a 16-bit machine word, as performed by a store into a
`uint16_t` object. -/
def w16 (n : Nat) : Nat := n % 65536

/-- Conversion of an `Int` (pointer difference / signed arithmetic result)
to the `uint16_t` word it is narrowed to. -/
def i2w (i : Int) : Nat := (i % 65536).toNat

/-- Reading a 16-bit word as the `int16_t` value with the same bit pattern
(two's complement). -/
def toSigned (v : Nat) : Int :=
  if v < 32768 then (v : Int) else (v : Int) - 65536

/-- Pointwise update of a function, modelling an array store. -/
def upd (f : Nat → Nat) (i v : Nat) : Nat → Nat :=
  fun j => if j = i then v else f j

/-- `sext5` from the source: if bit 4 is set, OR in `~0b11111` and narrow
to 16 bits (the function returns `int16_t`; we keep the bit pattern). -/
def sext5 (input : Nat) : Nat :=
  if input &&& 16 ≠ 0 then (input ||| 0xFFE0) &&& 0xFFFF else input

/-- `sext6` from the source (bit 5 replicated). -/
def sext6 (input : Nat) : Nat :=
  if input &&& 32 ≠ 0 then (input ||| 0xFFC0) &&& 0xFFFF else input

/-- `sext9` from the source (bit 8 replicated). -/
def sext9 (input : Nat) : Nat :=
  if input &&& 256 ≠ 0 then (input ||| 0xFE00) &&& 0xFFFF else input

/-- `sext11` from the source (bit 10 replicated). -/
def sext11 (input : Nat) : Nat :=
  if input &&& 1024 ≠ 0 then (input ||| 0xF800) &&& 0xFFFF else input

/-- `check_user_address` from the source: in supervisor mode (PSR bit 15
clear) every address is allowed; in user mode an address is out of bounds
iff it is below `0x3000` or at/above `0xFE00`. -/
def check_user_address (psr address : Nat) : Bool :=
  if psr &&& 32768 = 0 then false
  else decide (address < 0x3000) || decide (0xFE00 ≤ address)

/-- The condition-code flag chosen by `update_cond_code` for a written
value: N (4) if negative as `int16_t`, Z (2) if zero, P (1) if positive. -/
def condFlag (v : Nat) : Nat :=
  if toSigned v < 0 then 4 else if v = 0 then 2 else 1

/-- `update_cond_code` from the source: clear the N/Z/P bits of the PSR
word at `0xFFFC` and set the flag matching the sign of the value. -/
def update_cond_code (v : Nat) (mem : Nat → Nat) : Nat → Nat :=
  upd mem 0xFFFC ((mem 0xFFFC &&& 0xFFF8) ||| condFlag v)

/-- The machine state of the simulator: register file, 64Ki-word memory
plus the two shadow cells, PC (word index), scripted input stream with
cursor, and the host output buffer. -/
structure LC3State where
  regs : Nat → Nat
  mem : Nat → Nat
  pc : Nat
  inputBuf : List Nat
  inputIndex : Nat
  out : List Nat

/-- `interrupt` from the source: load PC from the interrupt/exception
vector table at `0x100 + code`; if in user mode, save R6 into the USP
shadow cell, load R6 from the SSP shadow cell and clear PSR bit 15.
Note that this function pushes nothing onto the stack. -/
def interrupt (s : LC3State) (code : Nat) : LC3State :=
  let pcv := s.mem (0x100 + code)
  let psr := s.mem 0xFFFC
  if psr &&& 32768 ≠ 0 then
    let mem1 := upd s.mem 0x10001 (s.regs 6)
    { s with pc := pcv
             mem := upd mem1 0xFFFC (psr &&& 32767)
             regs := upd s.regs 6 (mem1 0x10000) }
  else
    { s with pc := pcv }

/-- Write a destination register and run `update_cond_code` on the written
value, the common tail of ADD/AND/NOT/LEA/LD/LDI/LDR in the source. -/
def setRegCC (s : LC3State) (dr v : Nat) : LC3State :=
  { s with regs := upd s.regs dr v, mem := update_cond_code v s.mem }

/-- PC-relative effective address `&pc[sextN(offset)]` (pointer
arithmetic taken modulo 2^16). -/
def pcRel (pcv instr : Nat) : Nat :=
  i2w ((pcv : Int) + toSigned (sext9 (instr &&& 0x1FF)))

/-- Base+offset effective address `registers[sr1] + sext6(offset6)`
(`uint16_t` addition). -/
def baseRel (s : LC3State) (instr : Nat) : Nat :=
  w16 (s.regs ((instr >>> 6) &&& 7) + sext6 (instr &&& 63))

/-- ADD: DR ← SR1 + (imm-flag ? imm5 : SR2), wrapping, then condition
codes. -/
def execADD (s : LC3State) (instr : Nat) : LC3State :=
  let sr2 := if instr &&& 32 ≠ 0 then sext5 (instr &&& 31)
             else s.regs (instr &&& 7)
  setRegCC s ((instr >>> 9) &&& 7)
    (w16 (s.regs ((instr >>> 6) &&& 7) + sr2))

/-- AND: DR ← SR1 & (imm-flag ? imm5 : SR2), then condition codes. -/
def execAND (s : LC3State) (instr : Nat) : LC3State :=
  let sr2 := if instr &&& 32 ≠ 0 then sext5 (instr &&& 31)
             else s.regs (instr &&& 7)
  setRegCC s ((instr >>> 9) &&& 7)
    (s.regs ((instr >>> 6) &&& 7) &&& sr2)

/-- NOT: DR ← ~SR1 (16-bit complement), then condition codes. -/
def execNOT (s : LC3State) (instr : Nat) : LC3State :=
  setRegCC s ((instr >>> 9) &&& 7)
    (s.regs ((instr >>> 6) &&& 7) ^^^ 0xFFFF)

/-- TRAP: save the old PSR; if in user mode swap R6 with the supervisor
stack pointer and clear PSR bit 15; push old PSR then the incremented PC;
load PC from the trap vector table at `instr & 0xff`. -/
def execTRAP (s : LC3State) (instr : Nat) : LC3State :=
  let temp := s.mem 0xFFFC
  let s1 :=
    if temp &&& 32768 ≠ 0 then
      let mem1 := upd s.mem 0x10001 (s.regs 6)
      { s with mem := upd mem1 0xFFFC (temp &&& 32767)
               regs := upd s.regs 6 (mem1 0x10000) }
    else s
  let r6a := w16 (s1.regs 6 + 65535)
  let mem2 := upd s1.mem r6a temp
  let r6b := w16 (r6a + 65535)
  let mem3 := upd mem2 r6b s.pc
  { s1 with regs := upd s1.regs 6 r6b
            mem := mem3
            pc := mem3 (instr &&& 0xFF) }

/-- LEA: DR ← PC + offset9, then condition codes. -/
def execLEA (s : LC3State) (instr : Nat) : LC3State :=
  setRegCC s ((instr >>> 9) &&& 7) (pcRel s.pc instr)

/-- JMP: PC ← SR1 (via an `int16_t` cast and pointer arithmetic). -/
def execJMP (s : LC3State) (instr : Nat) : LC3State :=
  { s with pc := i2w (toSigned (w16 (s.regs ((instr >>> 6) &&& 7)))) }

/-- BR: branch iff nzp ∩ PSR[2:0] is non-empty. -/
def execBR (s : LC3State) (instr : Nat) : LC3State :=
  if ((instr >>> 9) &&& 7) &&& (s.mem 0xFFFC &&& 7) ≠ 0 then
    { s with pc := pcRel s.pc instr }
  else s

/-- JSR/JSRR: R7 ← incremented PC; if bit 11 set, PC += offset11; else
`pc += (int16_t)registers[sr1]` (the source adds the register to PC
rather than loading PC from it). -/
def execJSR (s : LC3State) (instr : Nat) : LC3State :=
  let s1 := { s with regs := upd s.regs 7 s.pc }
  if instr &&& 2048 ≠ 0 then
    { s1 with pc := i2w ((s.pc : Int) + toSigned (sext11 (instr &&& 0x7FF))) }
  else
    { s1 with pc := i2w ((s.pc : Int) +
                         toSigned (w16 (s1.regs ((instr >>> 6) &&& 7)))) }

/-- ST: on a user-mode out-of-bounds address the exception is raised, but
the store through the saved pointer is executed afterwards regardless
(there is no `else` in the source). -/
def execST (s : LC3State) (instr : Nat) : LC3State :=
  let a := pcRel s.pc instr
  let s1 := if check_user_address (s.mem 0xFFFC) a then interrupt s 2 else s
  { s1 with mem := upd s1.mem a (w16 (s1.regs ((instr >>> 9) &&& 7))) }

/-- STI: read the pointer word first; check the pointer address (raising
without suppressing), re-check the target with the possibly updated PSR;
the final store writes RAM and, when the target is the DDR and the stored
word is non-zero, appends the low byte to the host output buffer. -/
def execSTI (s : LC3State) (instr : Nat) : LC3State :=
  let a := pcRel s.pc instr
  let address := s.mem a
  let s1 := if check_user_address (s.mem 0xFFFC) a then interrupt s 2 else s
  if check_user_address (s1.mem 0xFFFC) address then interrupt s1 2
  else
    let mem2 := upd s1.mem address (w16 (s1.regs ((instr >>> 9) &&& 7)))
    let s2 := { s1 with mem := mem2 }
    if address = 0xFE06 ∧ mem2 0xFE06 ≠ 0 then
      { s2 with out := s2.out ++ [mem2 0xFE06 &&& 0xFF] }
    else s2

/-- STR: base+offset store, suppressed on access violation. -/
def execSTR (s : LC3State) (instr : Nat) : LC3State :=
  let address := baseRel s instr
  if check_user_address (s.mem 0xFFFC) address then interrupt s 2
  else { s with mem := upd s.mem address (w16 (s.regs ((instr >>> 9) &&& 7))) }

/-- LD: on a user-mode violation the exception is raised, but the load and
the condition-code update still execute afterwards (no `else` in the
source). -/
def execLD (s : LC3State) (instr : Nat) : LC3State :=
  let a := pcRel s.pc instr
  let s1 := if check_user_address (s.mem 0xFFFC) a then interrupt s 2 else s
  setRegCC s1 ((instr >>> 9) &&& 7) (s1.mem a)

/-- LDI: pointer read first, two checks as in the source; on the
non-violating path the load happens and, iff the target is the KBDR,
the scripted-input cursor advances. -/
def execLDI (s : LC3State) (instr : Nat) : LC3State :=
  let a := pcRel s.pc instr
  let address := s.mem a
  let s1 := if check_user_address (s.mem 0xFFFC) a then interrupt s 2 else s
  if check_user_address (s1.mem 0xFFFC) address then interrupt s1 2
  else
    let s2 := setRegCC s1 ((instr >>> 9) &&& 7) (s1.mem address)
    if address = 0xFE02 then { s2 with inputIndex := s2.inputIndex + 1 }
    else s2

/-- LDR: base+offset load, suppressed on access violation. -/
def execLDR (s : LC3State) (instr : Nat) : LC3State :=
  let address := baseRel s instr
  if check_user_address (s.mem 0xFFFC) address then interrupt s 2
  else setRegCC s ((instr >>> 9) &&& 7) (s.mem address)

/-- RTI: in user mode, raise the privilege-violation exception (code 0);
in supervisor mode pop PC then PSR, and if the popped PSR is user mode,
save R6 into the SSP shadow and load R6 from the USP shadow. -/
def execRTI (s : LC3State) : LC3State :=
  if s.mem 0xFFFC &&& 32768 = 0 then
    let r6 := s.regs 6
    let pcv := s.mem (w16 r6)
    let r6b := w16 (r6 + 1)
    let mem1 := upd s.mem 0xFFFC (s.mem (w16 r6b))
    let r6c := w16 (r6b + 1)
    if mem1 0xFFFC &&& 32768 ≠ 0 then
      let mem2 := upd mem1 0x10000 r6c
      { s with pc := pcv, mem := mem2, regs := upd s.regs 6 (mem2 0x10001) }
    else
      { s with pc := pcv, mem := mem1, regs := upd s.regs 6 r6c }
  else interrupt s 0

/-- Dispatch on the top four bits of the instruction word, as the
source's `switch ((instr & 0xf000) >> 12)`.  Opcode `0b1101` raises the
illegal-instruction exception (the extended ISA is compiled out). -/
def exec (s : LC3State) (instr : Nat) : LC3State :=
  let op := (instr &&& 0xF000) >>> 12
  if op = 0 then execBR s instr
  else if op = 1 then execADD s instr
  else if op = 2 then execLD s instr
  else if op = 3 then execST s instr
  else if op = 4 then execJSR s instr
  else if op = 5 then execAND s instr
  else if op = 6 then execLDR s instr
  else if op = 7 then execSTR s instr
  else if op = 8 then execRTI s
  else if op = 9 then execNOT s instr
  else if op = 10 then execLDI s instr
  else if op = 11 then execSTI s instr
  else if op = 12 then execJMP s instr
  else if op = 13 then interrupt s 1
  else if op = 14 then execLEA s instr
  else execTRAP s instr

/-- The KBSR/KBDR refresh at the head of each loop iteration: KBSR bit 15
is set iff the scripted input stream has an unread character, and in that
case KBDR is preloaded with it. -/
def refreshKB (mem : Nat → Nat) (buf : List Nat) (idx : Nat) : Nat → Nat :=
  let kbsr := if idx < buf.length then 32768 else 0
  let m1 := upd mem 0xFE00 kbsr
  if kbsr ≠ 0 then upd m1 0xFE02 (w16 (buf.getD idx 0)) else m1

/-- One iteration of the simulator's execute loop: fetch, increment PC,
refresh KBSR/KBDR, dispatch.  The loop runs `step` while MCR
(`memory[0xFFFE]`) bit 15 stays set. -/
def step (s : LC3State) : LC3State :=
  let instr := s.mem s.pc
  exec { s with pc := w16 (s.pc + 1)
                mem := refreshKB s.mem s.inputBuf s.inputIndex } instr

/-! ## Basic lemmas about the embedding -/

theorem upd_same (f : Nat → Nat) (i v : Nat) : upd f i v i = v := by
  simp [upd]

theorem upd_other (f : Nat → Nat) (i v j : Nat) (h : j ≠ i) :
    upd f i v j = f j := by
  simp [upd, h]

theorem refreshKB_other (mem : Nat → Nat) (buf : List Nat) (idx a : Nat)
    (h1 : a ≠ 0xFE00) (h2 : a ≠ 0xFE02) :
    refreshKB mem buf idx a = mem a := by
  unfold refreshKB
  split <;> simp [upd, h1, h2]

theorem testBit_small_false {c : Nat} (k i : Nat) (hc : c < 2 ^ k)
    (hi : k ≤ i) : Nat.testBit c i = false :=
  Nat.testBit_lt_two_pow
    (lt_of_lt_of_le hc (Nat.pow_le_pow_of_le_right Nat.zero_lt_two hi))

/-- The condition-code flag is one of N, Z, P. -/
theorem condFlag_cases (v : Nat) :
    condFlag v = 1 ∨ condFlag v = 2 ∨ condFlag v = 4 := by
  unfold condFlag
  split
  · exact Or.inr (Or.inr rfl)
  · split
    · exact Or.inr (Or.inl rfl)
    · exact Or.inl rfl

theorem condFlag_lt_eight (v : Nat) : condFlag v < 8 := by
  rcases condFlag_cases v with h | h | h <;> omega

/-- Writing `(x &&& 0xFFF8) ||| f` into the PSR leaves exactly the flag
`f` in the low three bits. -/
theorem flag_and_seven (x f : Nat) (hf : f < 8) :
    ((x &&& 0xFFF8) ||| f) &&& 7 = f := by
  apply Nat.eq_of_testBit_eq
  intro i
  simp only [Nat.testBit_and, Nat.testBit_or]
  by_cases h : i < 3
  · interval_cases i <;>
      simp [show Nat.testBit 0xFFF8 0 = false from rfl,
            show Nat.testBit 0xFFF8 1 = false from rfl,
            show Nat.testBit 0xFFF8 2 = false from rfl,
            show Nat.testBit 7 0 = true from rfl,
            show Nat.testBit 7 1 = true from rfl,
            show Nat.testBit 7 2 = true from rfl]
  · have h7 : Nat.testBit 7 i = false :=
      testBit_small_false 3 i (by decide) (by omega)
    have hfb : Nat.testBit f i = false :=
      testBit_small_false 3 i hf (by omega)
    simp [h7, hfb]

/-- The condition-code update does not change PSR bit 15. -/
theorem flag_bit15 (x f : Nat) (hf : f < 8) :
    ((x &&& 0xFFF8) ||| f) &&& 32768 = x &&& 32768 := by
  apply Nat.eq_of_testBit_eq
  intro i
  simp only [Nat.testBit_and, Nat.testBit_or]
  by_cases h : i = 15
  · subst h
    have hfb : Nat.testBit f 15 = false :=
      testBit_small_false 3 15 hf (by omega)
    simp [hfb, show Nat.testBit 0xFFF8 15 = true from rfl]
  · have h15 : Nat.testBit 32768 i = false := by
      rw [show (32768 : Nat) = 2 ^ 15 from rfl, Nat.testBit_two_pow]
      simp only [decide_eq_false_iff_not]
      omega
    simp [h15]

theorem and_32767_bit15 (x : Nat) : (x &&& 32767) &&& 32768 = 0 := by
  rw [Nat.and_assoc, show (32767 &&& 32768 : Nat) = 0 by decide, Nat.and_zero]

/-- After `setRegCC`, the PSR flag bits equal `condFlag v` and the
destination register holds `v`. -/
theorem setRegCC_spec (s : LC3State) (dr v : Nat) :
    (setRegCC s dr v).mem 0xFFFC &&& 7 = condFlag v ∧
    (setRegCC s dr v).regs dr = v := by
  constructor
  · show update_cond_code v s.mem 0xFFFC &&& 7 = condFlag v
    unfold update_cond_code
    rw [upd_same]
    exact flag_and_seven _ _ (condFlag_lt_eight v)
  · exact upd_same _ _ _

theorem setRegCC_psr_bit15 (s : LC3State) (dr v : Nat) :
    (setRegCC s dr v).mem 0xFFFC &&& 32768 = s.mem 0xFFFC &&& 32768 := by
  show update_cond_code v s.mem 0xFFFC &&& 32768 = _
  unfold update_cond_code
  rw [upd_same]
  exact flag_bit15 _ _ (condFlag_lt_eight v)

theorem upd_upd_same (f : Nat → Nat) (i a b : Nat) :
    upd (upd f i a) i b = upd f i b := by
  funext j
  simp only [upd]
  split <;> simp_all

theorem step_eq_exec (s : LC3State) :
    step s = exec { s with pc := w16 (s.pc + 1)
                           mem := refreshKB s.mem s.inputBuf s.inputIndex }
               (s.mem s.pc) := rfl

theorem exec_op0 (s : LC3State) (instr : Nat)
    (h : (instr &&& 0xF000) >>> 12 = 0) : exec s instr = execBR s instr := by
  simp [exec, h]

theorem exec_op1 (s : LC3State) (instr : Nat)
    (h : (instr &&& 0xF000) >>> 12 = 1) : exec s instr = execADD s instr := by
  simp [exec, h]

theorem exec_op2 (s : LC3State) (instr : Nat)
    (h : (instr &&& 0xF000) >>> 12 = 2) : exec s instr = execLD s instr := by
  simp [exec, h]

theorem exec_op3 (s : LC3State) (instr : Nat)
    (h : (instr &&& 0xF000) >>> 12 = 3) : exec s instr = execST s instr := by
  simp [exec, h]

theorem exec_op4 (s : LC3State) (instr : Nat)
    (h : (instr &&& 0xF000) >>> 12 = 4) : exec s instr = execJSR s instr := by
  simp [exec, h]

theorem exec_op5 (s : LC3State) (instr : Nat)
    (h : (instr &&& 0xF000) >>> 12 = 5) : exec s instr = execAND s instr := by
  simp [exec, h]

theorem exec_op6 (s : LC3State) (instr : Nat)
    (h : (instr &&& 0xF000) >>> 12 = 6) : exec s instr = execLDR s instr := by
  simp [exec, h]

theorem exec_op7 (s : LC3State) (instr : Nat)
    (h : (instr &&& 0xF000) >>> 12 = 7) : exec s instr = execSTR s instr := by
  simp [exec, h]

theorem exec_op8 (s : LC3State) (instr : Nat)
    (h : (instr &&& 0xF000) >>> 12 = 8) : exec s instr = execRTI s := by
  simp [exec, h]

theorem exec_op9 (s : LC3State) (instr : Nat)
    (h : (instr &&& 0xF000) >>> 12 = 9) : exec s instr = execNOT s instr := by
  simp [exec, h]

theorem exec_op10 (s : LC3State) (instr : Nat)
    (h : (instr &&& 0xF000) >>> 12 = 10) : exec s instr = execLDI s instr := by
  simp [exec, h]

theorem exec_op11 (s : LC3State) (instr : Nat)
    (h : (instr &&& 0xF000) >>> 12 = 11) : exec s instr = execSTI s instr := by
  simp [exec, h]

theorem exec_op14 (s : LC3State) (instr : Nat)
    (h : (instr &&& 0xF000) >>> 12 = 14) : exec s instr = execLEA s instr := by
  simp [exec, h]

theorem exec_op15 (s : LC3State) (instr : Nat)
    (h : (instr &&& 0xF000) >>> 12 = 15) : exec s instr = execTRAP s instr := by
  simp [exec, h]

/-- Closed form of `execTRAP` when the machine is in user mode. -/
theorem execTRAP_user_eq (t : LC3State) (instr : Nat)
    (huser : t.mem 0xFFFC &&& 32768 ≠ 0) :
    execTRAP t instr =
      { t with
        regs := upd t.regs 6 (w16 (w16 (t.mem 0x10000 + 65535) + 65535))
        mem := upd (upd (upd (upd t.mem 0x10001 (t.regs 6)) 0xFFFC
                   (t.mem 0xFFFC &&& 32767)) (w16 (t.mem 0x10000 + 65535))
                 (t.mem 0xFFFC)) (w16 (w16 (t.mem 0x10000 + 65535) + 65535)) t.pc
        pc := upd (upd (upd (upd t.mem 0x10001 (t.regs 6)) 0xFFFC
                   (t.mem 0xFFFC &&& 32767)) (w16 (t.mem 0x10000 + 65535))
                 (t.mem 0xFFFC)) (w16 (w16 (t.mem 0x10000 + 65535) + 65535)) t.pc
                (instr &&& 0xFF) } := by
  have e1 : upd t.mem 0x10001 (t.regs 6) 0x10000 = t.mem 0x10000 :=
    upd_other _ _ _ _ (by decide)
  simp only [execTRAP, if_pos huser, upd_same, e1, upd_upd_same]

/-- Facts about one `step` that executes a TRAP instruction in user mode:
stack swap to the supervisor stack, push of the old PSR then of the
incremented PC, supervisor mode afterwards, and (provided the pushes do
not overwrite the vector entry) PC loaded from the trap table at base 0. -/
theorem trap_step_facts (s : LC3State)
    (hop : (s.mem s.pc &&& 0xF000) >>> 12 = 15)
    (huser : s.mem 0xFFFC &&& 32768 ≠ 0)
    (ha1 : (s.mem 0x10000 + 65535) % 65536 ≠ 0xFFFC)
    (ha2 : (s.mem 0x10000 + 65534) % 65536 ≠ 0xFFFC) :
    (step s).mem 0xFFFC &&& 32768 = 0 ∧
    (step s).regs 6 = (s.mem 0x10000 + 65534) % 65536 ∧
    (step s).mem ((s.mem 0x10000 + 65534) % 65536) = (s.pc + 1) % 65536 ∧
    (step s).mem ((s.mem 0x10000 + 65535) % 65536) = s.mem 0xFFFC ∧
    (step s).mem 0x10001 = s.regs 6 ∧
    ((s.mem 0x10000 + 65535) % 65536 ≠ (s.mem s.pc &&& 0xFF) →
     (s.mem 0x10000 + 65534) % 65536 ≠ (s.mem s.pc &&& 0xFF) →
     (step s).pc = s.mem (s.mem s.pc &&& 0xFF)) ∧
    (∀ a, a ≠ 0x10001 → a ≠ 0xFFFC →
     a ≠ (s.mem 0x10000 + 65535) % 65536 →
     a ≠ (s.mem 0x10000 + 65534) % 65536 →
     a ≠ 0xFE00 → a ≠ 0xFE02 → (step s).mem a = s.mem a) := by
  have hr : ∀ a, a ≠ 0xFE00 → a ≠ 0xFE02 →
      refreshKB s.mem s.inputBuf s.inputIndex a = s.mem a := fun a h1 h2 =>
    refreshKB_other s.mem s.inputBuf s.inputIndex a h1 h2
  have hpsr : refreshKB s.mem s.inputBuf s.inputIndex 0xFFFC = s.mem 0xFFFC :=
    hr _ (by decide) (by decide)
  have hssp : refreshKB s.mem s.inputBuf s.inputIndex 0x10000 = s.mem 0x10000 :=
    hr _ (by decide) (by decide)
  have hstep : step s =
      execTRAP { s with pc := w16 (s.pc + 1)
                        mem := refreshKB s.mem s.inputBuf s.inputIndex }
        (s.mem s.pc) := by
    rw [step_eq_exec, exec_op15 _ _ hop]
  rw [hstep, execTRAP_user_eq _ _ (by simpa [hpsr] using huser)]
  simp only [hpsr, hssp]
  have ea1 : w16 (s.mem 0x10000 + 65535) = (s.mem 0x10000 + 65535) % 65536 := rfl
  have ea2 : w16 ((s.mem 0x10000 + 65535) % 65536 + 65535) =
      (s.mem 0x10000 + 65534) % 65536 := by
    unfold w16
    omega
  rw [ea1, ea2]
  have hne12 : (s.mem 0x10000 + 65534) % 65536 ≠ (s.mem 0x10000 + 65535) % 65536 := by
    omega
  refine ⟨?_, upd_same _ _ _, ?_, ?_, ?_, ?_, ?_⟩
  · rw [upd_other _ _ _ _ (Ne.symm ha2), upd_other _ _ _ _ (Ne.symm ha1), upd_same]
    exact and_32767_bit15 _
  · exact upd_same _ _ _
  · rw [upd_other _ _ _ _ (Ne.symm hne12), upd_same]
  · have h1 : (0x10001 : Nat) ≠ (s.mem 0x10000 + 65534) % 65536 := by omega
    have h2 : (0x10001 : Nat) ≠ (s.mem 0x10000 + 65535) % 65536 := by omega
    rw [upd_other _ _ _ _ h1, upd_other _ _ _ _ h2,
        upd_other _ _ _ _ (by decide), upd_same]
  · intro hv1 hv2
    have hvle : s.mem s.pc &&& 0xFF ≤ 255 := Nat.and_le_right
    rw [upd_other _ _ _ _ (Ne.symm hv2), upd_other _ _ _ _ (Ne.symm hv1),
        upd_other _ _ _ _ (by omega), upd_other _ _ _ _ (by omega)]
    exact hr _ (by omega) (by omega)
  · intro a g1 g2 g3 g4 g5 g6
    rw [upd_other _ _ _ _ g4, upd_other _ _ _ _ g3,
        upd_other _ _ _ _ g2, upd_other _ _ _ _ g1]
    exact hr _ g5 g6

/-- Closed form of `execTRAP` when the machine is already in supervisor
mode: no stack swap, the two pushes land below the current R6. -/
theorem execTRAP_sup_eq (t : LC3State) (instr : Nat)
    (hsup : t.mem 0xFFFC &&& 32768 = 0) :
    execTRAP t instr =
      { t with
        regs := upd t.regs 6 (w16 (w16 (t.regs 6 + 65535) + 65535))
        mem := upd (upd t.mem (w16 (t.regs 6 + 65535)) (t.mem 0xFFFC))
                 (w16 (w16 (t.regs 6 + 65535) + 65535)) t.pc
        pc := upd (upd t.mem (w16 (t.regs 6 + 65535)) (t.mem 0xFFFC))
                 (w16 (w16 (t.regs 6 + 65535) + 65535)) t.pc
                (instr &&& 0xFF) } := by
  simp only [execTRAP]
  rw [if_neg (by simp [hsup])]

/-- Facts about one `step` that executes a TRAP instruction in supervisor
mode: the idempotent push with no stack swap — old PSR then incremented
PC are pushed below the current R6 and, provided the push slots do not
alias the PSR cell or the vector entry, the PSR is unchanged and PC is
loaded from the trap table at base 0. -/
theorem trap_step_facts_sup (s : LC3State)
    (hop : (s.mem s.pc &&& 0xF000) >>> 12 = 15)
    (hsup : s.mem 0xFFFC &&& 32768 = 0) :
    (step s).regs 6 = (s.regs 6 + 65534) % 65536 ∧
    (step s).mem ((s.regs 6 + 65534) % 65536) = (s.pc + 1) % 65536 ∧
    (step s).mem ((s.regs 6 + 65535) % 65536) = s.mem 0xFFFC ∧
    ((s.regs 6 + 65535) % 65536 ≠ 0xFFFC →
     (s.regs 6 + 65534) % 65536 ≠ 0xFFFC →
     (step s).mem 0xFFFC = s.mem 0xFFFC) ∧
    ((s.regs 6 + 65535) % 65536 ≠ (s.mem s.pc &&& 0xFF) →
     (s.regs 6 + 65534) % 65536 ≠ (s.mem s.pc &&& 0xFF) →
     (step s).pc = s.mem (s.mem s.pc &&& 0xFF)) := by
  have hr : ∀ a, a ≠ 0xFE00 → a ≠ 0xFE02 →
      refreshKB s.mem s.inputBuf s.inputIndex a = s.mem a := fun a h1 h2 =>
    refreshKB_other s.mem s.inputBuf s.inputIndex a h1 h2
  have hpsr : refreshKB s.mem s.inputBuf s.inputIndex 0xFFFC = s.mem 0xFFFC :=
    hr _ (by decide) (by decide)
  have hstep : step s =
      execTRAP { s with pc := w16 (s.pc + 1)
                        mem := refreshKB s.mem s.inputBuf s.inputIndex }
        (s.mem s.pc) := by
    rw [step_eq_exec, exec_op15 _ _ hop]
  rw [hstep, execTRAP_sup_eq _ _ (by simpa [hpsr] using hsup)]
  simp only [hpsr]
  have ea1 : w16 (s.regs 6 + 65535) = (s.regs 6 + 65535) % 65536 := rfl
  have ea2 : w16 ((s.regs 6 + 65535) % 65536 + 65535) =
      (s.regs 6 + 65534) % 65536 := by
    unfold w16
    omega
  rw [ea1, ea2]
  have hne12 : (s.regs 6 + 65534) % 65536 ≠ (s.regs 6 + 65535) % 65536 := by
    omega
  refine ⟨upd_same _ _ _, upd_same _ _ _, ?_, ?_, ?_⟩
  · rw [upd_other _ _ _ _ (Ne.symm hne12), upd_same]
  · intro g1 g2
    rw [upd_other _ _ _ _ (Ne.symm g2), upd_other _ _ _ _ (Ne.symm g1)]
    exact hpsr
  · intro hv1 hv2
    have hvle : s.mem s.pc &&& 0xFF ≤ 255 := Nat.and_le_right
    rw [upd_other _ _ _ _ (Ne.symm hv2), upd_other _ _ _ _ (Ne.symm hv1)]
    exact hr _ (by omega) (by omega)

/-- Claim C6: for every TRAP instruction executed in user mode (PSR bit 15
set), provided the two supervisor-stack push slots do not alias the PSR
cell at `0xFFFC`, immediately after the trap entry PSR bit 15 is 0, R6
equals the previous SSP minus 2 (mod 2^16), `memory[R6]` holds the saved
(already incremented) PC and `memory[R6+1]` the PSR value from before the
trap. -/
theorem trap_user_frame (s : LC3State)
    (hop : (s.mem s.pc &&& 0xF000) >>> 12 = 15)
    (huser : s.mem 0xFFFC &&& 32768 ≠ 0)
    (ha1 : (s.mem 0x10000 + 65535) % 65536 ≠ 0xFFFC)
    (ha2 : (s.mem 0x10000 + 65534) % 65536 ≠ 0xFFFC) :
    (step s).mem 0xFFFC &&& 32768 = 0 ∧
    (step s).regs 6 = (s.mem 0x10000 + 65534) % 65536 ∧
    (step s).mem ((s.mem 0x10000 + 65534) % 65536) = (s.pc + 1) % 65536 ∧
    (step s).mem (((s.mem 0x10000 + 65534) % 65536 + 1) % 65536) = s.mem 0xFFFC := by
  obtain ⟨h1, h2, h3, h4, -, -, -⟩ := trap_step_facts s hop huser ha1 ha2
  refine ⟨h1, h2, h3, ?_⟩
  have e : ((s.mem 0x10000 + 65534) % 65536 + 1) % 65536 =
      (s.mem 0x10000 + 65535) % 65536 := by omega
  rw [e]
  exact h4

/-- A user-mode state about to execute `TRAP x25` with SSP = 0x2F00. -/
def trapWitness : LC3State :=
  { regs := fun i => if i = 6 then 0xF000 else 0
    mem := fun a =>
      if a = 0x3000 then 0xF025
      else if a = 0x25 then 0x21A
      else if a = 0xFFFC then 0x8002
      else if a = 0x10000 then 0x2F00
      else 0
    pc := 0x3000
    inputBuf := []
    inputIndex := 0
    out := [] }

theorem trap_user_frame_witness :
    (step trapWitness).mem 0xFFFC &&& 32768 = 0 ∧
    (step trapWitness).regs 6 = 0x2EFE ∧
    (step trapWitness).mem 0x2EFE = 0x3001 ∧
    (step trapWitness).mem 0x2EFF = 0x8002 := by
  obtain ⟨h1, h2, h3, h4⟩ :=
    trap_user_frame trapWitness (by decide) (by decide) (by decide) (by decide)
  have e1 : (trapWitness.mem 0x10000 + 65534) % 65536 = 0x2EFE := by decide
  have e2 : ((trapWitness.mem 0x10000 + 65534) % 65536 + 1) % 65536 = 0x2EFF := by
    decide
  rw [e1] at h2 h3
  rw [e2] at h4
  refine ⟨h1, h2, ?_, ?_⟩
  · rw [h3]
    decide
  · rw [h4]
    decide

/-- Split a bounded universal statement along a division to keep the
recursion depth of `decide` small. -/
theorem ball_split (P : Nat → Prop) (a b : Nat) (ha : 0 < a)
    (h : ∀ j, j < b → ∀ i, i < a → P (j * a + i)) :
    ∀ w, w < b * a → P w := by
  intro w hw
  have e := Nat.div_add_mod w a
  have h1 : w % a < a := Nat.mod_lt _ ha
  have h2 : w / a < b := Nat.div_lt_of_lt_mul (by rw [Nat.mul_comm]; exact hw)
  have h3 := h (w / a) h2 (w % a) h1
  have e2 : w / a * a + w % a = w := by rw [Nat.mul_comm]; exact e
  rwa [e2] at h3

set_option maxRecDepth 2000 in
/-- Claim C9: for each width k in {5, 6, 9, 11} and every k-bit input, the
simulator's sign extension equals `(w ^^^ (1 <<< (k-1))) - (1 <<< (k-1))`
taken modulo 2^16 (integer subtraction, non-negative remainder). -/
theorem sext_xor_sub_formula :
    (∀ w, w < 32 → (sext5 w : Int) =
      (((w ^^^ (1 <<< 4) : Nat) : Int) - (1 <<< 4)) % 65536) ∧
    (∀ w, w < 64 → (sext6 w : Int) =
      (((w ^^^ (1 <<< 5) : Nat) : Int) - (1 <<< 5)) % 65536) ∧
    (∀ w, w < 512 → (sext9 w : Int) =
      (((w ^^^ (1 <<< 8) : Nat) : Int) - (1 <<< 8)) % 65536) ∧
    (∀ w, w < 2048 → (sext11 w : Int) =
      (((w ^^^ (1 <<< 10) : Nat) : Int) - (1 <<< 10)) % 65536) := by
  refine ⟨by decide, by decide, ?_, ?_⟩
  · exact ball_split _ 256 2 (by decide) (by decide)
  · exact ball_split _ 256 8 (by decide) (by decide)

theorem sext_xor_sub_formula_witness :
    (sext5 21 : Int) = (((21 ^^^ (1 <<< 4) : Nat) : Int) - (1 <<< 4)) % 65536 ∧
    (sext6 45 : Int) = (((45 ^^^ (1 <<< 5) : Nat) : Int) - (1 <<< 5)) % 65536 ∧
    (sext9 300 : Int) = (((300 ^^^ (1 <<< 8) : Nat) : Int) - (1 <<< 8)) % 65536 ∧
    (sext11 1500 : Int) = (((1500 ^^^ (1 <<< 10) : Nat) : Int) - (1 <<< 10)) % 65536 :=
  ⟨sext_xor_sub_formula.1 21 (by decide),
   sext_xor_sub_formula.2.1 45 (by decide),
   sext_xor_sub_formula.2.2.1 300 (by decide),
   sext_xor_sub_formula.2.2.2 1500 (by decide)⟩

theorem interrupt_out (s : LC3State) (code : Nat) :
    (interrupt s code).out = s.out := by
  simp only [interrupt]
  split <;> rfl

theorem interrupt_inputIndex (s : LC3State) (code : Nat) :
    (interrupt s code).inputIndex = s.inputIndex := by
  simp only [interrupt]
  split <;> rfl

/-- A state about to execute `JSRR R1` with R1 = 0x4000 and PC = 0x3000. -/
def jsrrState : LC3State :=
  { regs := fun i => if i = 1 then 0x4000 else 0
    mem := fun a => if a = 0x3000 then 0x4040 else 0
    pc := 0x3000
    inputBuf := []
    inputIndex := 0
    out := [] }

/-- Claim C2 (code bug witness): executing `JSRR R1` with R1 = 0x4000 from
PC = 0x3000 sets R7 to the incremented PC as claimed, but the source
executes `pc += (int16_t)registers[SR1]`, so PC becomes 0x7001 instead of
the architected 0x4000. -/
theorem jsrr_adds_register_to_pc :
    (step jsrrState).regs 7 = 0x3001 ∧
    (step jsrrState).pc = 0x7001 ∧
    (step jsrrState).pc ≠ 0x4000 := by
  refine ⟨by decide, by decide, by decide⟩

/-- A user-mode state about to execute RTI at 0x3000, which raises the
privilege-violation exception (code 0); the exception vector 0x100 holds
0x600 and the SSP shadow holds 0x2F00. -/
def rtiUserState : LC3State :=
  { regs := fun i => if i = 6 then 0xF000 else 0
    mem := fun a =>
      if a = 0x3000 then 0x8000
      else if a = 0x100 then 0x600
      else if a = 0xFFFC then 0x8002
      else if a = 0x10000 then 0x2F00
      else 0
    pc := 0x3000
    inputBuf := []
    inputIndex := 0
    out := [] }

/-- Claim C1 (counterexample): on this exception entry the handler is
entered (PC = memory[0x100]) and the stack swap happens (R6 = SSP =
0x2F00), but nothing is pushed: R6 is not SSP − 2 and the two stack slots
do not hold the return PC and old PSR as the claim requires. -/
theorem exception_entry_no_push :
    (step rtiUserState).pc = 0x600 ∧
    (step rtiUserState).regs 6 = 0x2F00 ∧
    ¬ ((step rtiUserState).regs 6 = 0x2EFE ∧
       (step rtiUserState).mem 0x2EFE = 0x3001 ∧
       (step rtiUserState).mem 0x2EFF = 0x8002) := by
  refine ⟨by decide, by decide, by decide⟩

/-- A user-mode state about to execute `ST R0, #-256` at PC = 0x3000; the
effective address 0x2F01 is below the user window, so the access
violation (code 2) fires. -/
def stViolState : LC3State :=
  { regs := fun i => if i = 0 then 0x1234 else if i = 6 then 0xF000 else 0
    mem := fun a =>
      if a = 0x3000 then 0x3100
      else if a = 0x102 then 0x2F0
      else if a = 0xFFFC then 0x8002
      else if a = 0x10000 then 0x2F80
      else 0
    pc := 0x3000
    inputBuf := []
    inputIndex := 0
    out := [] }

/-- Claim C3 (code bug witness): the access-violation handler is entered
(PC = memory[0x102], supervisor mode), yet the ST case of the source has
no `else`, so the store to the out-of-bounds address 0x2F01 is executed
anyway: memory[0x2F01] changes from 0 to R0 = 0x1234. -/
theorem st_violation_still_writes :
    (step stViolState).pc = 0x2F0 ∧
    (step stViolState).mem 0xFFFC &&& 32768 = 0 ∧
    (step stViolState).mem 0x2F01 = 0x1234 ∧
    stViolState.mem 0x2F01 = 0 := by
  refine ⟨by decide, by decide, by decide, by decide⟩

/-- A supervisor-mode state about to execute `STR R0, R1, #0` with
R1 = 0xFE06 (the DDR) and R0 = 0x41. -/
def strDdrState : LC3State :=
  { regs := fun i => if i = 0 then 0x41 else if i = 1 then 0xFE06 else 0
    mem := fun a => if a = 0x3000 then 0x7040 else 0
    pc := 0x3000
    inputBuf := []
    inputIndex := 0
    out := [] }

/-- Claim C4 (counterexample): a STR to the DDR appends nothing to the
host output buffer and does write the value into RAM at 0xFE06, against
the claim that every store to the DDR appends its low byte and that only
non-DDR stores write RAM. -/
theorem str_to_ddr_no_output :
    (step strDdrState).out = [] ∧
    (step strDdrState).mem 0xFE06 = 0x41 ∧
    ¬ ((step strDdrState).out = strDdrState.out ++ [0x41] ∧
       (step strDdrState).mem 0xFE06 = strDdrState.mem 0xFE06) := by
  refine ⟨by decide, by decide, by decide⟩

/-- A supervisor-mode state about to execute `LDR R0, R1, #0` with
R1 = 0xFE02 (the KBDR) and one pending scripted-input character. -/
def ldrKbdrState : LC3State :=
  { regs := fun i => if i = 1 then 0xFE02 else 0
    mem := fun a => if a = 0x3000 then 0x6040 else 0
    pc := 0x3000
    inputBuf := [65]
    inputIndex := 0
    out := [] }

/-- Claim C5 (counterexample): an LDR from the KBDR returns the pending
character but does not consume it — the scripted-input cursor stays at 0
instead of advancing to 1.  Only LDI advances the cursor in the source. -/
theorem ldr_kbdr_does_not_consume :
    (step ldrKbdrState).regs 0 = 65 ∧
    (step ldrKbdrState).inputIndex = 0 ∧
    ¬ ((step ldrKbdrState).inputIndex = ldrKbdrState.inputIndex + 1) := by
  refine ⟨by decide, by decide, by decide⟩

/-- Claim C1 (amended): on TRAP entry — in either mode — the old PSR and
then the return PC are pushed (R6 decreases by 2, `memory[R6]` holds the
return address and `memory[R6+1]` the old PSR) and PC is loaded from the
trap table at base 0x0000; in user mode the pushes follow the swap to the
supervisor stack pointer, in supervisor mode they land below the current
R6 with no swap (the idempotent push).  On exception entry (`interrupt`)
PC is loaded from the table at base 0x0100 and, when in user mode, R6 is
swapped to the supervisor stack pointer and PSR bit 15 is cleared, but
nothing is pushed: no memory cell other than the USP shadow and the PSR
cell changes, and R6 becomes the SSP value itself, not SSP − 2. -/
theorem vector_entry_behaviour :
    (∀ s code,
      (interrupt s code).pc = s.mem (0x100 + code) ∧
      (∀ a, a ≠ 0x10001 → a ≠ 0xFFFC → (interrupt s code).mem a = s.mem a) ∧
      (s.mem 0xFFFC &&& 32768 ≠ 0 →
        (interrupt s code).regs 6 = s.mem 0x10000 ∧
        (interrupt s code).mem 0x10001 = s.regs 6 ∧
        (interrupt s code).mem 0xFFFC = s.mem 0xFFFC &&& 32767) ∧
      (s.mem 0xFFFC &&& 32768 = 0 →
        (interrupt s code).regs = s.regs ∧ (interrupt s code).mem = s.mem)) ∧
    (∀ s, (s.mem s.pc &&& 0xF000) >>> 12 = 15 →
      s.mem 0xFFFC &&& 32768 ≠ 0 →
      (s.mem 0x10000 + 65535) % 65536 ≠ 0xFFFC →
      (s.mem 0x10000 + 65534) % 65536 ≠ 0xFFFC →
      (s.mem 0x10000 + 65535) % 65536 ≠ (s.mem s.pc &&& 0xFF) →
      (s.mem 0x10000 + 65534) % 65536 ≠ (s.mem s.pc &&& 0xFF) →
      (step s).regs 6 = (s.mem 0x10000 + 65534) % 65536 ∧
      (step s).mem ((s.mem 0x10000 + 65534) % 65536) = (s.pc + 1) % 65536 ∧
      (step s).mem ((s.mem 0x10000 + 65535) % 65536) = s.mem 0xFFFC ∧
      (step s).pc = s.mem (s.mem s.pc &&& 0xFF)) ∧
    (∀ s, (s.mem s.pc &&& 0xF000) >>> 12 = 15 →
      s.mem 0xFFFC &&& 32768 = 0 →
      (s.regs 6 + 65535) % 65536 ≠ (s.mem s.pc &&& 0xFF) →
      (s.regs 6 + 65534) % 65536 ≠ (s.mem s.pc &&& 0xFF) →
      (step s).regs 6 = (s.regs 6 + 65534) % 65536 ∧
      (step s).mem ((s.regs 6 + 65534) % 65536) = (s.pc + 1) % 65536 ∧
      (step s).mem ((s.regs 6 + 65535) % 65536) = s.mem 0xFFFC ∧
      (step s).pc = s.mem (s.mem s.pc &&& 0xFF)) := by
  refine ⟨?_, ?_, ?_⟩
  · intro s code
    by_cases h : s.mem 0xFFFC &&& 32768 ≠ 0
    · refine ⟨?_, ?_, ?_, ?_⟩
      · simp only [interrupt, if_pos h]
      · intro a h1 h2
        simp only [interrupt, if_pos h]
        rw [upd_other _ _ _ _ h2, upd_other _ _ _ _ h1]
      · intro _
        simp only [interrupt, if_pos h]
        refine ⟨?_, ?_, upd_same _ _ _⟩
        · rw [upd_same, upd_other _ _ _ _ (by decide)]
        · rw [upd_other _ _ _ _ (by decide), upd_same]
      · intro h2
        exact absurd h2 (by simpa using h)
    · rw [not_not] at h
      refine ⟨?_, ?_, ?_, ?_⟩
      · simp only [interrupt, h]
        rw [if_neg (by simp [h])]
      · intro a _ _
        simp only [interrupt]
        rw [if_neg (by simp [h])]
      · intro h2
        exact absurd h (by simpa using h2)
      · intro _
        simp only [interrupt]
        rw [if_neg (by simp [h])]
        exact ⟨rfl, rfl⟩
  · intro s hop huser ha1 ha2 hv1 hv2
    obtain ⟨-, h2, h3, h4, -, h6, -⟩ := trap_step_facts s hop huser ha1 ha2
    exact ⟨h2, h3, h4, h6 hv1 hv2⟩
  · intro s hop hsup hv1 hv2
    obtain ⟨h1, h2, h3, -, h5⟩ := trap_step_facts_sup s hop hsup
    exact ⟨h1, h2, h3, h5 hv1 hv2⟩

/-- A supervisor-mode state about to execute `TRAP x22` with R6 = 0x2F00
(the running supervisor stack), exercising the idempotent push. -/
def supTrapState : LC3State :=
  { regs := fun i => if i = 6 then 0x2F00 else 0
    mem := fun a =>
      if a = 0x2000 then 0xF022
      else if a = 0x22 then 0x23B
      else 0
    pc := 0x2000
    inputBuf := []
    inputIndex := 0
    out := [] }

theorem vector_entry_behaviour_witness :
    (interrupt rtiUserState 0).pc = 0x600 ∧
    (interrupt rtiUserState 0).regs 6 = 0x2F00 ∧
    (step trapWitness).pc = 0x21A ∧
    (step supTrapState).regs 6 = 0x2EFE ∧
    (step supTrapState).mem 0x2EFE = 0x2001 ∧
    (step supTrapState).pc = 0x23B := by
  obtain ⟨hint, htrap, hstrap⟩ := vector_entry_behaviour
  obtain ⟨p1, -, p3, -⟩ := hint rtiUserState 0
  obtain ⟨r6, -, -⟩ := p3 (by decide)
  have ht := htrap trapWitness (by decide) (by decide) (by decide) (by decide)
    (by decide) (by decide)
  have hs := hstrap supTrapState (by decide) (by decide) (by decide) (by decide)
  refine ⟨?_, ?_, ?_, ?_, ?_, ?_⟩
  · rw [p1]
    decide
  · rw [r6]
    decide
  · rw [ht.2.2.2]
    decide
  · rw [hs.1]
    decide
  · have e : (supTrapState.regs 6 + 65534) % 65536 = 0x2EFE := by decide
    rw [e] at hs
    rw [hs.2.1]
    decide
  · rw [hs.2.2.2]
    decide

theorem check_sup (psr addr : Nat) (h : psr &&& 32768 = 0) :
    check_user_address psr addr = false := by
  unfold check_user_address
  rw [if_pos h]

/-- Claim C4 (amended): only the STI case of the source implements the
DDR side effect.  ST and STR never touch the host output buffer, and a
supervisor ST or STR to 0xFE06 writes the value into RAM; an STI whose
final target is 0xFE06 writes the word into RAM and appends its low byte
to the output buffer exactly when the stored word is non-zero. -/
theorem ddr_store_behaviour :
    (∀ s, (s.mem s.pc &&& 0xF000) >>> 12 = 3 → (step s).out = s.out) ∧
    (∀ s, (s.mem s.pc &&& 0xF000) >>> 12 = 3 →
      s.mem 0xFFFC &&& 32768 = 0 →
      pcRel (w16 (s.pc + 1)) (s.mem s.pc) = 0xFE06 →
      (step s).mem 0xFE06 = w16 (s.regs ((s.mem s.pc >>> 9) &&& 7))) ∧
    (∀ s, (s.mem s.pc &&& 0xF000) >>> 12 = 7 → (step s).out = s.out) ∧
    (∀ s, (s.mem s.pc &&& 0xF000) >>> 12 = 7 →
      s.mem 0xFFFC &&& 32768 = 0 →
      w16 (s.regs ((s.mem s.pc >>> 6) &&& 7) + sext6 (s.mem s.pc &&& 63)) = 0xFE06 →
      (step s).mem 0xFE06 = w16 (s.regs ((s.mem s.pc >>> 9) &&& 7))) ∧
    (∀ s, (s.mem s.pc &&& 0xF000) >>> 12 = 11 →
      s.mem 0xFFFC &&& 32768 = 0 →
      refreshKB s.mem s.inputBuf s.inputIndex
        (pcRel (w16 (s.pc + 1)) (s.mem s.pc)) = 0xFE06 →
      (step s).mem 0xFE06 = w16 (s.regs ((s.mem s.pc >>> 9) &&& 7)) ∧
      (step s).out = if w16 (s.regs ((s.mem s.pc >>> 9) &&& 7)) ≠ 0
                     then s.out ++ [w16 (s.regs ((s.mem s.pc >>> 9) &&& 7)) &&& 0xFF]
                     else s.out) := by
  have hpsr : ∀ s : LC3State,
      refreshKB s.mem s.inputBuf s.inputIndex 0xFFFC = s.mem 0xFFFC := fun s =>
    refreshKB_other _ _ _ _ (by decide) (by decide)
  refine ⟨?_, ?_, ?_, ?_, ?_⟩
  · intro s hop
    rw [step_eq_exec, exec_op3 _ _ hop]
    simp only [execST]
    split
    · exact interrupt_out _ _
    · rfl
  · intro s hop hsup haddr
    rw [step_eq_exec, exec_op3 _ _ hop]
    simp only [execST, hpsr s, check_sup _ _ hsup]
    rw [if_neg Bool.false_ne_true]
    rw [haddr]
    simp [upd]
  · intro s hop
    rw [step_eq_exec, exec_op7 _ _ hop]
    simp only [execSTR]
    split
    · exact interrupt_out _ _
    · rfl
  · intro s hop hsup haddr
    rw [step_eq_exec, exec_op7 _ _ hop]
    simp only [execSTR, baseRel, hpsr s, check_sup _ _ hsup]
    rw [if_neg Bool.false_ne_true]
    rw [haddr]
    simp [upd]
  · intro s hop hsup haddr
    rw [step_eq_exec, exec_op11 _ _ hop]
    simp only [pcRel] at haddr
    simp only [execSTI, pcRel, hpsr s, check_sup _ _ hsup]
    by_cases hv : w16 (s.regs ((s.mem s.pc >>> 9) &&& 7)) ≠ 0
    · simp [haddr, upd, hv, hpsr s, check_sup _ _ hsup]
    · simp [haddr, upd, hv, hpsr s, check_sup _ _ hsup]

/-- A supervisor-mode state about to execute `STI R0, #1` whose pointer
word at 0x3002 holds 0xFE06 (the DDR), with R0 = 0x48. -/
def stiDdrState : LC3State :=
  { regs := fun i => if i = 0 then 0x48 else 0
    mem := fun a => if a = 0x3000 then 0xB001 else if a = 0x3002 then 0xFE06 else 0
    pc := 0x3000
    inputBuf := []
    inputIndex := 0
    out := [] }

/-- A supervisor-mode state at PC = 0xFE00 about to execute `ST R0, #5`,
whose effective address 0xFE01 + 5 is the DDR, with R0 = 0x55. -/
def stDdrState : LC3State :=
  { regs := fun i => if i = 0 then 0x55 else 0
    mem := fun a => if a = 0xFE00 then 0x3005 else 0
    pc := 0xFE00
    inputBuf := []
    inputIndex := 0
    out := [] }

theorem ddr_store_behaviour_witness :
    (step strDdrState).out = strDdrState.out ∧
    (step stDdrState).mem 0xFE06 = 0x55 ∧
    (step strDdrState).mem 0xFE06 = 0x41 ∧
    (step stiDdrState).mem 0xFE06 = 0x48 ∧
    (step stiDdrState).out = [0x48] := by
  obtain ⟨hst, hstd, hstr, hstrd, hsti⟩ := ddr_store_behaviour
  have h2 := hstr strDdrState (by decide)
  have h2b := hstd stDdrState (by decide) (by decide) (by decide)
  have h3 := hstrd strDdrState (by decide) (by decide) (by decide)
  have h4 := hsti stiDdrState (by decide) (by decide) (by decide)
  refine ⟨h2, ?_, ?_, ?_, ?_⟩
  · rw [h2b]
    decide
  · rw [h3]
    decide
  · rw [h4.1]
    decide
  · rw [h4.2]
    decide

/-- Claim C5 (amended): only the LDI case of the source consumes scripted
input.  LD and LDR never advance the input cursor, whatever address they
read; an LDI whose final target is 0xFE02 (the KBDR) advances the cursor
by exactly one and returns the pending character when one is available. -/
theorem kbdr_consume_behaviour :
    (∀ s, (s.mem s.pc &&& 0xF000) >>> 12 = 2 →
      (step s).inputIndex = s.inputIndex) ∧
    (∀ s, (s.mem s.pc &&& 0xF000) >>> 12 = 6 →
      (step s).inputIndex = s.inputIndex) ∧
    (∀ s, (s.mem s.pc &&& 0xF000) >>> 12 = 10 →
      s.mem 0xFFFC &&& 32768 = 0 →
      refreshKB s.mem s.inputBuf s.inputIndex
        (pcRel (w16 (s.pc + 1)) (s.mem s.pc)) = 0xFE02 →
      (step s).inputIndex = s.inputIndex + 1 ∧
      (s.inputIndex < s.inputBuf.length →
        (step s).regs ((s.mem s.pc >>> 9) &&& 7) =
          w16 (s.inputBuf.getD s.inputIndex 0))) := by
  have hpsr : ∀ s : LC3State,
      refreshKB s.mem s.inputBuf s.inputIndex 0xFFFC = s.mem 0xFFFC := fun s =>
    refreshKB_other _ _ _ _ (by decide) (by decide)
  refine ⟨?_, ?_, ?_⟩
  · intro s hop
    rw [step_eq_exec, exec_op2 _ _ hop]
    simp only [execLD, setRegCC]
    split
    · exact interrupt_inputIndex _ _
    · rfl
  · intro s hop
    rw [step_eq_exec, exec_op6 _ _ hop]
    simp only [execLDR, setRegCC]
    split
    · exact interrupt_inputIndex _ _
    · rfl
  · intro s hop hsup haddr
    rw [step_eq_exec, exec_op10 _ _ hop]
    simp only [pcRel] at haddr
    simp only [execLDI, pcRel, hpsr s, check_sup _ _ hsup, setRegCC]
    constructor
    · simp [haddr, hpsr s, check_sup _ _ hsup]
    · intro hlt
      have hkb : refreshKB s.mem s.inputBuf s.inputIndex 0xFE02 =
          w16 (s.inputBuf.getD s.inputIndex 0) := by
        simp [refreshKB, hlt, upd]
      simp [haddr, hpsr s, check_sup _ _ hsup, upd, hkb]

/-- A supervisor-mode state about to execute `LD R0, #1`. -/
def ldPlainState : LC3State :=
  { regs := fun _ => 0
    mem := fun a => if a = 0x3000 then 0x2001 else 0
    pc := 0x3000
    inputBuf := [67]
    inputIndex := 0
    out := [] }

/-- A supervisor-mode state about to execute `LDI R0, #1` whose pointer
word at 0x3002 holds 0xFE02 (the KBDR), with one pending character. -/
def getcLdiState : LC3State :=
  { regs := fun _ => 0
    mem := fun a => if a = 0x3000 then 0xA001 else if a = 0x3002 then 0xFE02 else 0
    pc := 0x3000
    inputBuf := [66]
    inputIndex := 0
    out := [] }

theorem kbdr_consume_behaviour_witness :
    (step ldPlainState).inputIndex = ldPlainState.inputIndex ∧
    (step ldrKbdrState).inputIndex = ldrKbdrState.inputIndex ∧
    (step getcLdiState).inputIndex = 1 ∧
    (step getcLdiState).regs 0 = 66 := by
  obtain ⟨hld, hldr, hldi⟩ := kbdr_consume_behaviour
  have h1 := hld ldPlainState (by decide)
  have h2 := hldr ldrKbdrState (by decide)
  have h3 := hldi getcLdiState (by decide) (by decide) (by decide)
  refine ⟨h1, h2, ?_, ?_⟩
  · rw [h3.1]
    decide
  · have h4 := h3.2 (by decide)
    have e : getcLdiState.mem getcLdiState.pc >>> 9 &&& 7 = 0 := by decide
    rw [e] at h4
    rw [h4]
    decide

/-- A user-mode state with the Z flag set, about to execute `JSR #1`. -/
def jsrCCState : LC3State :=
  { regs := fun _ => 0
    mem := fun a => if a = 0x3000 then 0x4801 else if a = 0xFFFC then 0x8002 else 0
    pc := 0x3000
    inputBuf := []
    inputIndex := 0
    out := [] }

/-- Claim C8 (counterexample): JSR writes R7 = 0x3001 (a positive value),
but the source never calls `update_cond_code` in the JSR/JSRR case, so
the Z flag from before remains set instead of P. -/
theorem jsr_no_cond_update :
    (step jsrCCState).regs 7 = 0x3001 ∧
    (step jsrCCState).mem 0xFFFC &&& 7 = 2 ∧
    (step jsrCCState).mem 0xFFFC &&& 7 ≠ condFlag ((step jsrCCState).regs 7) := by
  refine ⟨by decide, by decide, by decide⟩

/-- Claim C8 (amended): after any ADD, AND, NOT, LEA or LD, and after any
LDR or LDI that raises no access violation, the low three PSR bits equal
`condFlag` of the value written to the destination register — exactly one
of N, Z, P, matching the sign of the written value as `int16_t`.  JSR and
JSRR write R7 but leave the condition codes unchanged. -/
theorem cond_codes_after_write :
    (∀ v, condFlag v = 1 ∨ condFlag v = 2 ∨ condFlag v = 4) ∧
    (∀ s, (s.mem s.pc &&& 0xF000) >>> 12 = 1 →
      (step s).mem 0xFFFC &&& 7 = condFlag ((step s).regs ((s.mem s.pc >>> 9) &&& 7))) ∧
    (∀ s, (s.mem s.pc &&& 0xF000) >>> 12 = 5 →
      (step s).mem 0xFFFC &&& 7 = condFlag ((step s).regs ((s.mem s.pc >>> 9) &&& 7))) ∧
    (∀ s, (s.mem s.pc &&& 0xF000) >>> 12 = 9 →
      (step s).mem 0xFFFC &&& 7 = condFlag ((step s).regs ((s.mem s.pc >>> 9) &&& 7))) ∧
    (∀ s, (s.mem s.pc &&& 0xF000) >>> 12 = 14 →
      (step s).mem 0xFFFC &&& 7 = condFlag ((step s).regs ((s.mem s.pc >>> 9) &&& 7))) ∧
    (∀ s, (s.mem s.pc &&& 0xF000) >>> 12 = 2 →
      (step s).mem 0xFFFC &&& 7 = condFlag ((step s).regs ((s.mem s.pc >>> 9) &&& 7))) ∧
    (∀ s, (s.mem s.pc &&& 0xF000) >>> 12 = 6 →
      check_user_address (s.mem 0xFFFC)
        (w16 (s.regs ((s.mem s.pc >>> 6) &&& 7) + sext6 (s.mem s.pc &&& 63))) = false →
      (step s).mem 0xFFFC &&& 7 = condFlag ((step s).regs ((s.mem s.pc >>> 9) &&& 7))) ∧
    (∀ s, (s.mem s.pc &&& 0xF000) >>> 12 = 10 →
      check_user_address (s.mem 0xFFFC) (pcRel (w16 (s.pc + 1)) (s.mem s.pc)) = false →
      check_user_address (s.mem 0xFFFC)
        (refreshKB s.mem s.inputBuf s.inputIndex
          (pcRel (w16 (s.pc + 1)) (s.mem s.pc))) = false →
      (step s).mem 0xFFFC &&& 7 = condFlag ((step s).regs ((s.mem s.pc >>> 9) &&& 7))) ∧
    (∀ s, (s.mem s.pc &&& 0xF000) >>> 12 = 4 →
      (step s).mem 0xFFFC = s.mem 0xFFFC ∧
      (step s).regs 7 = w16 (s.pc + 1)) := by
  have hpsr : ∀ s : LC3State,
      refreshKB s.mem s.inputBuf s.inputIndex 0xFFFC = s.mem 0xFFFC := fun s =>
    refreshKB_other _ _ _ _ (by decide) (by decide)
  refine ⟨condFlag_cases, ?_, ?_, ?_, ?_, ?_, ?_, ?_, ?_⟩
  · intro s hop
    rw [step_eq_exec, exec_op1 _ _ hop]
    simp only [execADD]
    rw [(setRegCC_spec _ _ _).1, (setRegCC_spec _ _ _).2]
  · intro s hop
    rw [step_eq_exec, exec_op5 _ _ hop]
    simp only [execAND]
    rw [(setRegCC_spec _ _ _).1, (setRegCC_spec _ _ _).2]
  · intro s hop
    rw [step_eq_exec, exec_op9 _ _ hop]
    simp only [execNOT]
    rw [(setRegCC_spec _ _ _).1, (setRegCC_spec _ _ _).2]
  · intro s hop
    rw [step_eq_exec, exec_op14 _ _ hop]
    simp only [execLEA]
    rw [(setRegCC_spec _ _ _).1, (setRegCC_spec _ _ _).2]
  · intro s hop
    rw [step_eq_exec, exec_op2 _ _ hop]
    simp only [execLD]
    rw [(setRegCC_spec _ _ _).1, (setRegCC_spec _ _ _).2]
  · intro s hop hc
    rw [step_eq_exec, exec_op6 _ _ hop]
    simp only [execLDR, baseRel, hpsr s, hc]
    rw [if_neg Bool.false_ne_true]
    simp [setRegCC_spec]
  · intro s hop hc1 hc2
    rw [step_eq_exec, exec_op10 _ _ hop]
    simp only [pcRel] at hc1 hc2
    simp only [execLDI, pcRel, hpsr s, hc1]
    rw [if_neg Bool.false_ne_true]
    simp only [hpsr s, hc2]
    rw [if_neg Bool.false_ne_true]
    split <;> simp [setRegCC_spec]
  · intro s hop
    rw [step_eq_exec, exec_op4 _ _ hop]
    constructor
    · simp only [execJSR]
      split <;> exact hpsr s
    · simp only [execJSR]
      split <;> simp [upd]

/-- A state about to execute `ADD R2, R1, #-5` with R1 = 3 (spec scenario
1). -/
def addState : LC3State :=
  { regs := fun i => if i = 1 then 3 else 0
    mem := fun a => if a = 0x3000 then 0x147B else 0
    pc := 0x3000
    inputBuf := []
    inputIndex := 0
    out := [] }

theorem cond_codes_after_write_witness :
    (step addState).mem 0xFFFC &&& 7 = condFlag ((step addState).regs 2) ∧
    (step addState).regs 2 = 0xFFFE ∧
    (step addState).mem 0xFFFC &&& 7 = 4 ∧
    (step jsrCCState).mem 0xFFFC = jsrCCState.mem 0xFFFC := by
  obtain ⟨-, hadd, -, -, -, -, -, -, hjsr⟩ := cond_codes_after_write
  have h1 := hadd addState (by decide)
  have e : addState.mem addState.pc >>> 9 &&& 7 = 2 := by decide
  rw [e] at h1
  exact ⟨h1, by decide, by decide, (hjsr jsrCCState (by decide)).1⟩

theorem w16_w16 (x : Nat) : w16 (w16 x) = w16 x := by
  unfold w16
  omega

/-- Facts about one `step` that executes RTI in supervisor mode when the
popped PSR word indicates user mode: PC and PSR are popped from the
supervisor stack and R6 is reloaded from the USP shadow cell. -/
theorem rti_step_facts (u : LC3State)
    (hop : (u.mem u.pc &&& 0xF000) >>> 12 = 8)
    (hsup : u.mem 0xFFFC &&& 32768 = 0)
    (he1 : w16 (u.regs 6) ≠ 0xFE00) (he2 : w16 (u.regs 6) ≠ 0xFE02)
    (he3 : w16 (u.regs 6 + 1) ≠ 0xFE00) (he4 : w16 (u.regs 6 + 1) ≠ 0xFE02)
    (hpop : u.mem (w16 (u.regs 6 + 1)) &&& 32768 ≠ 0) :
    (step u).pc = u.mem (w16 (u.regs 6)) ∧
    (step u).mem 0xFFFC = u.mem (w16 (u.regs 6 + 1)) ∧
    (step u).regs 6 = u.mem 0x10001 := by
  have hr : ∀ a, a ≠ 0xFE00 → a ≠ 0xFE02 →
      refreshKB u.mem u.inputBuf u.inputIndex a = u.mem a := fun a h1 h2 =>
    refreshKB_other _ _ _ _ h1 h2
  have hpsr := hr 0xFFFC (by decide) (by decide)
  have hrd1 := hr _ he1 he2
  have hrd2 := hr _ he3 he4
  rw [step_eq_exec, exec_op8 _ _ hop]
  simp only [execRTI, hpsr, w16_w16, hrd1, hrd2]
  rw [if_pos hsup]
  rw [if_pos (by rw [upd_same]; exact hpop)]
  refine ⟨rfl, ?_, ?_⟩
  · simp [upd]
  · simp [upd, hr]

/-- Claim C7: for every balanced TRAP/RTI pair — a TRAP executed in user
mode in state `s`, and any later state `u` about to execute the RTI such
that nothing in between changed the privilege mode, the two saved stack
words, the saved user R6 in the USP shadow cell, or R6 itself — the PSR,
PC and R6 after the RTI equal their values from just before the TRAP
(with PC at the instruction following the TRAP).  The handler body may be
arbitrary as long as it preserves those observables; the remaining side
conditions only keep the two stack slots away from the PSR and KBSR/KBDR
cells. -/
theorem trap_rti_roundtrip (s u : LC3State)
    (hop : (s.mem s.pc &&& 0xF000) >>> 12 = 15)
    (huser : s.mem 0xFFFC &&& 32768 ≠ 0)
    (ha1 : (s.mem 0x10000 + 65535) % 65536 ≠ 0xFFFC)
    (ha2 : (s.mem 0x10000 + 65534) % 65536 ≠ 0xFFFC)
    (hb1 : (s.mem 0x10000 + 65535) % 65536 ≠ 0xFE00)
    (hb2 : (s.mem 0x10000 + 65535) % 65536 ≠ 0xFE02)
    (hb3 : (s.mem 0x10000 + 65534) % 65536 ≠ 0xFE00)
    (hb4 : (s.mem 0x10000 + 65534) % 65536 ≠ 0xFE02)
    (hrti : (u.mem u.pc &&& 0xF000) >>> 12 = 8)
    (hmode : u.mem 0xFFFC &&& 32768 = 0)
    (hr6 : u.regs 6 = (step s).regs 6)
    (hw1 : u.mem ((s.mem 0x10000 + 65534) % 65536) =
           (step s).mem ((s.mem 0x10000 + 65534) % 65536))
    (hw2 : u.mem ((s.mem 0x10000 + 65535) % 65536) =
           (step s).mem ((s.mem 0x10000 + 65535) % 65536))
    (husp : u.mem 0x10001 = (step s).mem 0x10001) :
    (step u).pc = (s.pc + 1) % 65536 ∧
    (step u).mem 0xFFFC = s.mem 0xFFFC ∧
    (step u).regs 6 = s.regs 6 := by
  obtain ⟨-, t2, t3, t4, t5, -, -⟩ := trap_step_facts s hop huser ha1 ha2
  have e2 : w16 (u.regs 6) = (s.mem 0x10000 + 65534) % 65536 := by
    rw [hr6, t2]
    unfold w16
    omega
  have e3 : w16 (u.regs 6 + 1) = (s.mem 0x10000 + 65535) % 65536 := by
    rw [hr6, t2]
    unfold w16
    omega
  obtain ⟨r1, r2, r3⟩ := rti_step_facts u hrti hmode
    (by rw [e2]; exact hb3) (by rw [e2]; exact hb4)
    (by rw [e3]; exact hb1) (by rw [e3]; exact hb2)
    (by rw [e3, hw2, t4]; exact huser)
  rw [e2, hw1, t3] at r1
  rw [e3, hw2, t4] at r2
  rw [husp, t5] at r3
  exact ⟨r1, r2, r3⟩

/-- A user-mode state about to execute `TRAP x20` whose handler has a
body: at 0x1000 a `LEA R0, #0` (which clobbers R0 and the condition
codes) and only then, at 0x1001, the RTI.  SSP = 0x2F00, user
R6 = 0xF000. -/
def trapRtiWitness : LC3State :=
  { regs := fun i => if i = 6 then 0xF000 else 0
    mem := fun a =>
      if a = 0x3000 then 0xF020
      else if a = 0x20 then 0x1000
      else if a = 0x1000 then 0xE000
      else if a = 0x1001 then 0x8000
      else if a = 0xFFFC then 0x8002
      else if a = 0x10000 then 0x2F00
      else 0
    pc := 0x3000
    inputBuf := []
    inputIndex := 0
    out := [] }

theorem trap_rti_roundtrip_witness :
    (step (step (step trapRtiWitness))).pc = 0x3001 ∧
    (step (step (step trapRtiWitness))).mem 0xFFFC = 0x8002 ∧
    (step (step (step trapRtiWitness))).regs 6 = 0xF000 := by
  obtain ⟨h1, h2, h3⟩ := trap_rti_roundtrip trapRtiWitness
    (step (step trapRtiWitness))
    (by decide) (by decide) (by decide) (by decide) (by decide) (by decide)
    (by decide) (by decide) (by decide) (by decide) (by decide) (by decide)
    (by decide) (by decide)
  refine ⟨?_, ?_, ?_⟩
  · rw [h1]
    decide
  · rw [h2]
    decide
  · rw [h3]
    decide

/-- Hypotheses at the GETC polling loop: the OS image words at 0x254
(`LDI R0, #3`), 0x255 (`BRzp #-2`) and 0x258 (the KBSR address 0xFE00)
are in place, the machine is in supervisor mode, the clock (MCR bit 15)
is on, and the scripted input stream is exhausted.  In the OS image the
trap vector at 0x20 holds 0x254, so TRAP x20 lands exactly here. -/
def GetcBase (s : LC3State) : Prop :=
  s.mem 0x254 = 0xA003 ∧ s.mem 0x255 = 0x07FE ∧ s.mem 0x258 = 0xFE00 ∧
  s.mem 0xFFFC &&& 32768 = 0 ∧ s.mem 0xFFFE &&& 32768 ≠ 0 ∧
  s.inputBuf.length ≤ s.inputIndex

/-- The loop invariant: the base facts hold and PC is at one of the two
polling instructions (after the LDI the condition codes show Z). -/
def GetcInv (s : LC3State) : Prop :=
  GetcBase s ∧ (s.pc = 0x254 ∨ (s.pc = 0x255 ∧ s.mem 0xFFFC &&& 7 = 2))

theorem getc_inv_step (s : LC3State) (h : GetcInv s) :
    GetcInv (step s) ∧ (step s).mem 0xFE00 = 0 := by
  obtain ⟨⟨hb1, hb2, hb3, hb4, hb5, hb6⟩, hpc⟩ := h
  have hnl : ¬ s.inputIndex < s.inputBuf.length := by omega
  have hkb : refreshKB s.mem s.inputBuf s.inputIndex = upd s.mem 0xFE00 0 := by
    simp [refreshKB, hnl]
  have e3 : upd s.mem 0xFE00 0 0xFFFC = s.mem 0xFFFC :=
    upd_other _ _ _ _ (by decide)
  rcases hpc with h254 | ⟨h255, hcc⟩
  · have hstep : step s =
        { s with pc := 0x255, regs := upd s.regs 0 0,
                 mem := upd (upd s.mem 0xFE00 0) 0xFFFC
                   ((s.mem 0xFFFC &&& 0xFFF8) ||| 2) } := by
      rw [step_eq_exec, h254, hb1, hkb]
      rw [exec_op10 _ _ (by decide)]
      have e1 : w16 (0x254 + 1) = 0x255 := by decide
      have e2 : pcRel 0x255 0xA003 = 0x258 := by decide
      simp only [execLDI, e1, e2]
      have e4 : upd s.mem 0xFE00 0 0x258 = 0xFE00 := by
        rw [upd_other _ _ _ _ (by decide)]
        exact hb3
      simp only [e3, e4, check_sup _ _ hb4]
      rw [if_neg Bool.false_ne_true]
      simp only [e3, check_sup _ _ hb4]
      rw [if_neg Bool.false_ne_true]
      rw [if_neg (by decide : ¬ (0xFE00 : Nat) = 0xFE02)]
      have e5 : upd s.mem 0xFE00 0 0xFE00 = 0 := upd_same _ _ _
      simp only [setRegCC, e5, update_cond_code, e3,
        show condFlag 0 = 2 from by decide]
      rfl
    rw [hstep]
    refine ⟨⟨⟨?_, ?_, ?_, ?_, ?_, hb6⟩, Or.inr ⟨rfl, ?_⟩⟩, ?_⟩
    · show upd (upd s.mem 0xFE00 0) 0xFFFC ((s.mem 0xFFFC &&& 0xFFF8) ||| 2)
        0x254 = 0xA003
      rw [upd_other _ _ _ _ (by decide), upd_other _ _ _ _ (by decide)]
      exact hb1
    · show upd (upd s.mem 0xFE00 0) 0xFFFC ((s.mem 0xFFFC &&& 0xFFF8) ||| 2)
        0x255 = 0x07FE
      rw [upd_other _ _ _ _ (by decide), upd_other _ _ _ _ (by decide)]
      exact hb2
    · show upd (upd s.mem 0xFE00 0) 0xFFFC ((s.mem 0xFFFC &&& 0xFFF8) ||| 2)
        0x258 = 0xFE00
      rw [upd_other _ _ _ _ (by decide), upd_other _ _ _ _ (by decide)]
      exact hb3
    · show upd (upd s.mem 0xFE00 0) 0xFFFC ((s.mem 0xFFFC &&& 0xFFF8) ||| 2)
        0xFFFC &&& 32768 = 0
      rw [upd_same, flag_bit15 _ _ (by decide)]
      exact hb4
    · show upd (upd s.mem 0xFE00 0) 0xFFFC ((s.mem 0xFFFC &&& 0xFFF8) ||| 2)
        0xFFFE &&& 32768 ≠ 0
      rw [upd_other _ _ _ _ (by decide), upd_other _ _ _ _ (by decide)]
      exact hb5
    · show upd (upd s.mem 0xFE00 0) 0xFFFC ((s.mem 0xFFFC &&& 0xFFF8) ||| 2)
        0xFFFC &&& 7 = 2
      rw [upd_same, flag_and_seven _ _ (by decide)]
    · show upd (upd s.mem 0xFE00 0) 0xFFFC ((s.mem 0xFFFC &&& 0xFFF8) ||| 2)
        0xFE00 = 0
      rw [upd_other _ _ _ _ (by decide), upd_same]
  · have hstep : step s = { s with pc := 0x254, mem := upd s.mem 0xFE00 0 } := by
      rw [step_eq_exec, h255, hb2, hkb]
      rw [exec_op0 _ _ (by decide)]
      simp only [execBR, e3, hcc]
      rw [if_pos (by decide)]
      have e6 : pcRel (w16 (0x255 + 1)) 0x07FE = 0x254 := by decide
      rw [e6]
    rw [hstep]
    refine ⟨⟨⟨?_, ?_, ?_, ?_, ?_, hb6⟩, Or.inl rfl⟩, ?_⟩
    · show upd s.mem 0xFE00 0 0x254 = 0xA003
      rw [upd_other _ _ _ _ (by decide)]
      exact hb1
    · show upd s.mem 0xFE00 0 0x255 = 0x07FE
      rw [upd_other _ _ _ _ (by decide)]
      exact hb2
    · show upd s.mem 0xFE00 0 0x258 = 0xFE00
      rw [upd_other _ _ _ _ (by decide)]
      exact hb3
    · show upd s.mem 0xFE00 0 0xFFFC &&& 32768 = 0
      rw [e3]
      exact hb4
    · show upd s.mem 0xFE00 0 0xFFFE &&& 32768 ≠ 0
      rw [upd_other _ _ _ _ (by decide)]
      exact hb5
    · show upd s.mem 0xFE00 0 0xFE00 = 0
      rw [upd_same]

/-- Claim C10: once the GETC polling loop is entered at 0x254 with the
scripted input exhausted, the machine never halts: after every further
step MCR bit 15 is still set, PC stays inside the two-instruction loop
{0x254, 0x255}, and every refresh leaves KBSR bit 15 clear. -/
theorem getc_loop_forever (s : LC3State) (hbase : GetcBase s)
    (hpc : s.pc = 0x254) (n : Nat) :
    (step^[n + 1] s).mem 0xFFFE &&& 32768 ≠ 0 ∧
    ((step^[n + 1] s).pc = 0x254 ∨ (step^[n + 1] s).pc = 0x255) ∧
    (step^[n + 1] s).mem 0xFE00 &&& 32768 = 0 := by
  have hinv : ∀ m, GetcInv (step^[m] s) := by
    intro m
    induction m with
    | zero => exact ⟨hbase, Or.inl hpc⟩
    | succ k ih =>
      rw [Function.iterate_succ_apply']
      exact (getc_inv_step _ ih).1
  have hkbsr : (step^[n + 1] s).mem 0xFE00 = 0 := by
    rw [Function.iterate_succ_apply']
    exact (getc_inv_step _ (hinv n)).2
  obtain ⟨⟨-, -, -, -, h5, -⟩, hp⟩ := hinv (n + 1)
  refine ⟨h5, ?_, ?_⟩
  · rcases hp with h | ⟨h, -⟩
    · exact Or.inl h
    · exact Or.inr h
  · rw [hkbsr]
    decide

/-- A supervisor-mode state at the GETC polling loop with no input left. -/
def getcLoopState : LC3State :=
  { regs := fun _ => 0
    mem := fun a =>
      if a = 0x254 then 0xA003
      else if a = 0x255 then 0x07FE
      else if a = 0x258 then 0xFE00
      else if a = 0xFFFE then 0x8000
      else 0
    pc := 0x254
    inputBuf := []
    inputIndex := 0
    out := [] }

theorem getc_loop_forever_witness :
    (step^[1] getcLoopState).mem 0xFFFE &&& 32768 ≠ 0 ∧
    ((step^[1] getcLoopState).pc = 0x254 ∨ (step^[1] getcLoopState).pc = 0x255) ∧
    (step^[1] getcLoopState).mem 0xFE00 &&& 32768 = 0 :=
  getc_loop_forever getcLoopState
    ⟨by decide, by decide, by decide, by decide, by decide, by decide⟩
    (by decide) 0
